import Mathlib

/-!
Verification development for the Python source-code instrumenter
(`python.adapter.py`): a source-to-source transformer that wraps function
and coroutine definitions with tracing calls, normalizes return statements,
and supports backup-based restore.

The embedding mirrors the adapter:
* `Expr`/`Stmt` model the fragment of the Python AST the adapter builds and
  traverses (statement-level structure is exact; expressions carry no
  statements, matching Python, where a `return` cannot occur inside an
  expression).
* `FunctionWrapper` becomes `wrapVisitStmt`/`wrapVisitBody` (the
  `ast.NodeTransformer` dispatch: `visit_FunctionDef` and
  `visit_AsyncFunctionDef` are overridden and do not recurse into the
  definition they handle; every other node is traversed generically).
* `ReturnTransformer` becomes `returnTransformStmt`/`returnTransformBody`
  (only `visit_Return` is overridden, so the generic visit recurses into
  every child, nested function definitions included).
* `PythonInstrumenter.instrument_file`/`uninstrument_file` become state
  transitions on an explicit file-system map.  The external libraries
  `ast.parse` and `astor.to_source` are not part of this repository: they
  are abstracted as parameters (`External`), and file paths are modelled as
  strings relative to the working directory (the happy path of
  `Path.relative_to`).
-/

namespace PyAdapter

/-- Python expressions, restricted to the shapes the adapter constructs and
inspects: names, string constants, field access, calls and dict displays. -/
inductive Expr where
  | name (id : String)
  | strConst (s : String)
  | field (value : Expr) (fieldName : String)
  | call (func : Expr) (args : List Expr)
  | dict (keys : List Expr) (values : List Expr)
deriving Repr

mutual
/-- Python statements relevant to the adapter: returns (with optional value),
expression statements, assignments, raises, conditionals, loops, try blocks,
function/coroutine/class definitions, and an inert statement standing for
everything the transformers leave untouched. -/
inductive Stmt where
  | ret (value : Option Expr)
  | exprS (e : Expr)
  | assign (target : String) (value : Expr)
  | raiseS (e : Option Expr)
  | passS
  | ifS (test : Expr) (body orelse : List Stmt)
  | whileS (test : Expr) (body : List Stmt)
  | forS (target : String) (iter : Expr) (body : List Stmt)
  | tryS (body : List Stmt) (handlers : List Handler) (orelse finalbody : List Stmt)
  | funcDef (fname : String) (args : List String) (body : List Stmt)
  | asyncFuncDef (fname : String) (args : List String) (body : List Stmt)
  | classDef (cname : String) (body : List Stmt)
deriving Repr

/-- An `ast.ExceptHandler`: optional exception type, optional bound name,
handler body. -/
inductive Handler where
  | mk (htype : Option Expr) (hname : Option String) (body : List Stmt)
deriving Repr
end

/-- `InstrumentOptions`: configuration of one instrumentation run.
`functions` is the include-only list, `exclude_functions` the explicit
exclude list; the capture flags are carried but (as in the adapter) not
consulted by the wrapping code. -/
structure InstrumentOptions where
  level : Int
  capture_params : Bool
  capture_return : Bool
  capture_vars : Bool
  capture_async : Bool
  functions : List String
  exclude_functions : List String
deriving Repr

/-- The process environment as the adapter reads it: the raw values of
`TRACING_EXCLUDE_FUNCTIONS` and `TRACING_EXCLUDE_FUNCTION_PREFIXES`
(`os.getenv` with default `''`). -/
structure Env where
  tracingExcludeFunctions : String
  tracingExcludeFunctionPrefixes : String
deriving Repr

/-- Python's `str.split(sep)` on character lists: split at every separator,
never merging; the empty string yields one empty field. -/
def pySplit (sep : Char) : List Char → List (List Char)
  | [] => [[]]
  | c :: t =>
      let r := pySplit sep t
      if c = sep then [] :: r
      else
        match r with
        | [] => [[c]]
        | h :: t2 => (c :: h) :: t2

/-- Python's `str.split(sep)` on strings. -/
def pySplitStr (s : String) (sep : Char) : List String :=
  (pySplit sep s.data).map String.mk

/-- Python's `str.strip()`: drop leading and trailing whitespace. -/
def pyStrip (s : String) : String :=
  String.mk (((s.data.dropWhile Char.isWhitespace).reverse.dropWhile
    Char.isWhitespace).reverse)

/-- Python's `str.startswith(pfx)`. -/
def pyStartsWith (s pfx : String) : Bool :=
  pfx.data.isPrefixOf s.data

/-- `FunctionWrapper._get_excluded_functions`: the options' exclude list,
extended by the comma-separated environment list (when non-empty, each entry
stripped), then by the four reserved special-method names. -/
def getExcludedFunctions (env : Env) (opts : InstrumentOptions) : List String :=
  let excluded := opts.exclude_functions
  let excluded :=
    if env.tracingExcludeFunctions ≠ "" then
      excluded ++ ((pySplitStr env.tracingExcludeFunctions ',').map pyStrip)
    else excluded
  excluded ++ ["__init__", "__str__", "__repr__", "__eq__"]

/-- The state of one `FunctionWrapper`: target file path, options, and the
environment it reads its exclusion lists from. -/
structure WrapperCfg where
  filePath : String
  options : InstrumentOptions
  env : Env

/-- `FunctionWrapper._should_instrument`: exclude list first, then the
include-only list (which short-circuits everything after it), then the
environment prefix-exclusion list, else include. -/
def shouldInstrument (cfg : WrapperCfg) (funcName : String) : Bool :=
  if funcName ∈ getExcludedFunctions cfg.env cfg.options then false
  else if cfg.options.functions ≠ [] then funcName ∈ cfg.options.functions
  else if cfg.env.tracingExcludeFunctionPrefixes ≠ "" then
    if (pySplitStr cfg.env.tracingExcludeFunctionPrefixes ',').any
        (fun pfx => pyStartsWith funcName (pyStrip pfx)) then false
    else true
  else true

/-- Shorthand for `__tracer.<f>`, the attribute access every injected call
starts from. -/
def tracerField (f : String) : Expr :=
  Expr.field (Expr.name "__tracer") f

/-- `FunctionWrapper._create_params_dict`: a dict display mapping each plain
positional parameter's name (as a constant) to a name reference of it. -/
def createParamsDict (args : List String) : Expr :=
  Expr.dict (args.map Expr.strConst) (args.map Expr.name)

/-- The `__ctx = __tracer.start_function(name, file, params)` statement of
the standard wrapping. -/
def startFunctionStmt (filePath fname : String) (args : List String) : Stmt :=
  Stmt.assign "__ctx"
    (Expr.call (tracerField "start_function")
      [Expr.strConst fname, Expr.strConst filePath, createParamsDict args])

/-- The `except Exception as error: __tracer.error_function(__ctx, error); raise error`
handler of the standard wrapping. -/
def standardHandler : Handler :=
  Handler.mk (some (Expr.name "Exception")) (some "error")
    [Stmt.exprS (Expr.call (tracerField "error_function")
        [Expr.name "__ctx", Expr.name "error"]),
     Stmt.raiseS (some (Expr.name "error"))]

/-- `ReturnTransformer.visit_Return` on a value-carrying return: the value
becomes `__tracer.end_function(__ctx, value)`. -/
def tracerEndCall (v : Expr) : Expr :=
  Expr.call (tracerField "end_function") [Expr.name "__ctx", v]

mutual
/-- One step of `ReturnTransformer.visit`: `visit_Return` rewrites
value-carrying returns and leaves bare returns alone; every other node is
traversed by the inherited `generic_visit`, which recurses into all child
statements — nested function, coroutine and class definitions included,
since `ReturnTransformer` overrides no visitor for them. -/
def returnTransformStmt : Stmt → Stmt
  | Stmt.ret (some v) => Stmt.ret (some (tracerEndCall v))
  | Stmt.ret none => Stmt.ret none
  | Stmt.exprS e => Stmt.exprS e
  | Stmt.assign t v => Stmt.assign t v
  | Stmt.raiseS e => Stmt.raiseS e
  | Stmt.passS => Stmt.passS
  | Stmt.ifS t b e => Stmt.ifS t (returnTransformBody b) (returnTransformBody e)
  | Stmt.whileS t b => Stmt.whileS t (returnTransformBody b)
  | Stmt.forS x it b => Stmt.forS x it (returnTransformBody b)
  | Stmt.tryS b hs oe fb =>
      Stmt.tryS (returnTransformBody b) (returnTransformHandlers hs)
        (returnTransformBody oe) (returnTransformBody fb)
  | Stmt.funcDef n a b => Stmt.funcDef n a (returnTransformBody b)
  | Stmt.asyncFuncDef n a b => Stmt.asyncFuncDef n a (returnTransformBody b)
  | Stmt.classDef n b => Stmt.classDef n (returnTransformBody b)

/-- `ReturnTransformer` over a statement list (`_transform_returns` maps
`transformer.visit` over the body). -/
def returnTransformBody : List Stmt → List Stmt
  | [] => []
  | s :: t => returnTransformStmt s :: returnTransformBody t

/-- `generic_visit` descending through a list of `ExceptHandler`s. -/
def returnTransformHandlers : List Handler → List Handler
  | [] => []
  | Handler.mk ty n b :: t =>
      Handler.mk ty n (returnTransformBody b) :: returnTransformHandlers t
end

/-- `FunctionWrapper._wrap_minimal` (level 1): prepend
`__tracer.enter(name, file)`, append `__tracer.exit(name)`; returns are not
touched and no exception guard is installed. -/
def wrapMinimal (filePath fname : String) (args : List String) (body : List Stmt) : Stmt :=
  Stmt.funcDef fname args
    ([Stmt.exprS (Expr.call (tracerField "enter")
        [Expr.strConst fname, Expr.strConst filePath])]
      ++ body
      ++ [Stmt.exprS (Expr.call (tracerField "exit") [Expr.strConst fname])])

/-- `FunctionWrapper._wrap_standard` (level 2): body becomes the
context-acquisition assignment followed by a try whose body is the
return-transformed original body and whose single handler reports and
re-raises. -/
def wrapStandard (filePath fname : String) (args : List String) (body : List Stmt) : Stmt :=
  Stmt.funcDef fname args
    [startFunctionStmt filePath fname args,
     Stmt.tryS (returnTransformBody body) [standardHandler] [] []]

/-- `FunctionWrapper._wrap_detailed` (level 3+): currently identical to the
standard wrapping. -/
def wrapDetailed (filePath fname : String) (args : List String) (body : List Stmt) : Stmt :=
  wrapStandard filePath fname args body

/-- `FunctionWrapper._wrap_async`: the standard wrapping on an async
definition. -/
def wrapAsync (filePath fname : String) (args : List String) (body : List Stmt) : Stmt :=
  Stmt.asyncFuncDef fname args
    [startFunctionStmt filePath fname args,
     Stmt.tryS (returnTransformBody body) [standardHandler] [] []]

mutual
/-- One step of `FunctionWrapper.visit`.  `visit_FunctionDef` and
`visit_AsyncFunctionDef` are overridden: they consult the policy, bump the
wrap counter (even at level 0), dispatch on the level, and — crucially —
never call `generic_visit`, so the traversal does not descend into a
function definition's body.  All other statements are handled by
`generic_visit`, which rebuilds the node around the visited children.
Returns the replacement node and the number of functions counted as wrapped
in this subtree. -/
def wrapVisitStmt (cfg : WrapperCfg) : Stmt → Stmt × Nat
  | Stmt.funcDef n a b =>
      if shouldInstrument cfg n then
        if cfg.options.level = 0 then (Stmt.funcDef n a b, 1)
        else if cfg.options.level = 1 then (wrapMinimal cfg.filePath n a b, 1)
        else if cfg.options.level = 2 then (wrapStandard cfg.filePath n a b, 1)
        else (wrapDetailed cfg.filePath n a b, 1)
      else (Stmt.funcDef n a b, 0)
  | Stmt.asyncFuncDef n a b =>
      if shouldInstrument cfg n then
        if cfg.options.level = 0 then (Stmt.asyncFuncDef n a b, 1)
        else (wrapAsync cfg.filePath n a b, 1)
      else (Stmt.asyncFuncDef n a b, 0)
  | Stmt.ret v => (Stmt.ret v, 0)
  | Stmt.exprS e => (Stmt.exprS e, 0)
  | Stmt.assign t v => (Stmt.assign t v, 0)
  | Stmt.raiseS e => (Stmt.raiseS e, 0)
  | Stmt.passS => (Stmt.passS, 0)
  | Stmt.ifS t b e =>
      let rb := wrapVisitBody cfg b
      let re := wrapVisitBody cfg e
      (Stmt.ifS t rb.1 re.1, rb.2 + re.2)
  | Stmt.whileS t b =>
      let rb := wrapVisitBody cfg b
      (Stmt.whileS t rb.1, rb.2)
  | Stmt.forS x it b =>
      let rb := wrapVisitBody cfg b
      (Stmt.forS x it rb.1, rb.2)
  | Stmt.tryS b hs oe fb =>
      let rb := wrapVisitBody cfg b
      let rh := wrapVisitHandlers cfg hs
      let ro := wrapVisitBody cfg oe
      let rf := wrapVisitBody cfg fb
      (Stmt.tryS rb.1 rh.1 ro.1 rf.1, rb.2 + rh.2 + ro.2 + rf.2)
  | Stmt.classDef n b =>
      let rb := wrapVisitBody cfg b
      (Stmt.classDef n rb.1, rb.2)

/-- `FunctionWrapper` over a statement list (the `generic_visit` of a
`Module` or of any statement-list field). -/
def wrapVisitBody (cfg : WrapperCfg) : List Stmt → List Stmt × Nat
  | [] => ([], 0)
  | s :: t =>
      let rs := wrapVisitStmt cfg s
      let rt := wrapVisitBody cfg t
      (rs.1 :: rt.1, rs.2 + rt.2)

/-- `FunctionWrapper`'s `generic_visit` through `ExceptHandler` lists. -/
def wrapVisitHandlers (cfg : WrapperCfg) : List Handler → List Handler × Nat
  | [] => ([], 0)
  | Handler.mk ty n b :: t =>
      let rb := wrapVisitBody cfg b
      let rt := wrapVisitHandlers cfg t
      (Handler.mk ty n rb.1 :: rt.1, rb.2 + rt.2)
end

mutual
/-- Number of policy-eligible function/coroutine definitions that the
`FunctionWrapper` traversal can reach: the count recurses into every
statement-list child except the body of a function or coroutine definition
(matching the overridden visitors, which do not call `generic_visit`). -/
def eligibleReachableStmt (cfg : WrapperCfg) : Stmt → Nat
  | Stmt.funcDef n _ _ => if shouldInstrument cfg n then 1 else 0
  | Stmt.asyncFuncDef n _ _ => if shouldInstrument cfg n then 1 else 0
  | Stmt.ifS _ b e => eligibleReachableBody cfg b + eligibleReachableBody cfg e
  | Stmt.whileS _ b => eligibleReachableBody cfg b
  | Stmt.forS _ _ b => eligibleReachableBody cfg b
  | Stmt.tryS b hs oe fb =>
      eligibleReachableBody cfg b + eligibleReachableHandlers cfg hs
        + eligibleReachableBody cfg oe + eligibleReachableBody cfg fb
  | Stmt.classDef _ b => eligibleReachableBody cfg b
  | _ => 0

/-- `eligibleReachableStmt` summed over a statement list. -/
def eligibleReachableBody (cfg : WrapperCfg) : List Stmt → Nat
  | [] => 0
  | s :: t => eligibleReachableStmt cfg s + eligibleReachableBody cfg t

/-- `eligibleReachableStmt` summed through handler lists. -/
def eligibleReachableHandlers (cfg : WrapperCfg) : List Handler → Nat
  | [] => 0
  | Handler.mk _ _ b :: t =>
      eligibleReachableBody cfg b + eligibleReachableHandlers cfg t
end

mutual
/-- Modelled from the spec: the number N of policy-eligible function and
coroutine definitions in the whole file, definitions nested inside other
functions included — the quantity the wrap-count claim compares
`functions_wrapped` against. -/
def eligibleAllStmt (cfg : WrapperCfg) : Stmt → Nat
  | Stmt.funcDef n _ b =>
      (if shouldInstrument cfg n then 1 else 0) + eligibleAllBody cfg b
  | Stmt.asyncFuncDef n _ b =>
      (if shouldInstrument cfg n then 1 else 0) + eligibleAllBody cfg b
  | Stmt.ifS _ b e => eligibleAllBody cfg b + eligibleAllBody cfg e
  | Stmt.whileS _ b => eligibleAllBody cfg b
  | Stmt.forS _ _ b => eligibleAllBody cfg b
  | Stmt.tryS b hs oe fb =>
      eligibleAllBody cfg b + eligibleAllHandlers cfg hs
        + eligibleAllBody cfg oe + eligibleAllBody cfg fb
  | Stmt.classDef _ b => eligibleAllBody cfg b
  | _ => 0

/-- `eligibleAllStmt` summed over a statement list. -/
def eligibleAllBody (cfg : WrapperCfg) : List Stmt → Nat
  | [] => 0
  | s :: t => eligibleAllStmt cfg s + eligibleAllBody cfg t

/-- `eligibleAllStmt` summed through handler lists. -/
def eligibleAllHandlers (cfg : WrapperCfg) : List Handler → Nat
  | [] => 0
  | Handler.mk _ _ b :: t =>
      eligibleAllBody cfg b + eligibleAllHandlers cfg t
end

mutual
/-- Every return statement occurring anywhere in a statement (any nesting
depth, nested function/coroutine/class definitions included), listed as its
optional value expression, in source order. -/
def stmtReturns : Stmt → List (Option Expr)
  | Stmt.ret v => [v]
  | Stmt.ifS _ b e => bodyReturns b ++ bodyReturns e
  | Stmt.whileS _ b => bodyReturns b
  | Stmt.forS _ _ b => bodyReturns b
  | Stmt.tryS b hs oe fb =>
      bodyReturns b ++ handlersReturns hs ++ bodyReturns oe ++ bodyReturns fb
  | Stmt.funcDef _ _ b => bodyReturns b
  | Stmt.asyncFuncDef _ _ b => bodyReturns b
  | Stmt.classDef _ b => bodyReturns b
  | _ => []

/-- `stmtReturns` concatenated over a statement list. -/
def bodyReturns : List Stmt → List (Option Expr)
  | [] => []
  | s :: t => stmtReturns s ++ bodyReturns t

/-- `stmtReturns` concatenated through handler lists. -/
def handlersReturns : List Handler → List (Option Expr)
  | [] => []
  | Handler.mk _ _ b :: t => bodyReturns b ++ handlersReturns t
end

/-- Python's `needle in hay` substring test on character lists. -/
def charsContain (needle : List Char) : List Char → Bool
  | [] => needle.isEmpty
  | c :: t => needle.isPrefixOf (c :: t) || charsContain needle t

/-- Python's `needle in hay` on strings. -/
def strContains (hay needle : String) : Bool :=
  charsContain needle.data hay.data

/-- The tracer-import line prepended by `_add_tracer_import`. -/
def tracerImportLine : String :=
  "from .ai_agents.logging.runtime.tracer import __tracer\n\n"

/-- `PythonInstrumenter._add_tracer_import`: prepend the import line. -/
def addTracerImport (code : String) : String :=
  tracerImportLine ++ code

/-- `PythonInstrumenter._is_instrumented`: the code contains the tracer
marker token or the tracer-import module path. -/
def isInstrumented (code : String) : Bool :=
  strContains code "__tracer" || strContains code "from .ai_agents.logging.runtime.tracer"

/-- `PythonInstrumenter._remove_instrumentation`: drop every line containing
either marker, rejoin with newlines. -/
def removeInstrumentation (code : String) : String :=
  String.intercalate "\n"
    ((code.splitOn "\n").filter
      (fun line => !strContains line "__tracer"
        && !strContains line "from .ai_agents.logging.runtime.tracer"))

/-- The backup root `.ai-agents/logging/backups/original` under the working
directory. -/
def backupDir : String :=
  ".ai-agents/logging/backups/original/"

/-- `_create_backup` / `_get_backup_path`: the backup of a file lives at the
backup root extended by the file's path relative to the working directory
(paths are modelled as cwd-relative strings). -/
def backupPath (filePath : String) : String :=
  backupDir ++ filePath

/-- The file system: a map from paths to file contents. -/
def FS : Type := String → Option String

/-- Writing a file: the map updated at one path. -/
def FS.write (fs : FS) (p c : String) : FS :=
  fun q => if q = p then some c else fs q

/-- The `ast.parse` / `astor.to_source` collaborators.  They are external
libraries, not code of this repository, so they are abstracted: `parse`
yields a module body or a parser diagnostic, `toSource` yields source text
or fails (any such failure is caught by the adapter's generic handler). -/
structure External where
  parse : String → Except String (List Stmt)
  toSource : List Stmt → Except String String

/-- The result dict of `instrument_file`, with the keys it populates. -/
structure RewriteResult where
  success : Bool
  error : Option String
  functions_wrapped : Nat
  backup_path : String
  original_code : Option String
  instrumented_code : Option String
deriving Repr

/-- `PythonInstrumenter.instrument_file`: read the file (an unreadable file
raises and is caught by the surrounding handler, which reports with an
empty backup path); snapshot the original under the backup root; refuse
already-instrumented content (backup path still reported); parse, transform,
regenerate, prepend the import, and only then overwrite the target.  Any
parse or emission failure is caught by the same generic handler: no write
to the target happens on those paths.  Returns the updated file system and
the structured result. -/
def instrumentFile (ext : External) (env : Env) (fs : FS)
    (filePath : String) (opts : InstrumentOptions) : FS × RewriteResult :=
  match fs filePath with
  | none =>
      (fs, ⟨false, some "No such file or directory", 0, "", none, none⟩)
  | some originalCode =>
      let bp := backupPath filePath
      let fs1 := FS.write fs bp originalCode
      if isInstrumented originalCode then
        (fs1, ⟨false, some "File is already instrumented. Use uninstrument first.",
          0, bp, none, none⟩)
      else
        match ext.parse originalCode with
        | Except.error e => (fs1, ⟨false, some e, 0, "", none, none⟩)
        | Except.ok tree =>
            let res := wrapVisitBody ⟨filePath, opts, env⟩ tree
            match ext.toSource res.1 with
            | Except.error e => (fs1, ⟨false, some e, 0, "", none, none⟩)
            | Except.ok code =>
                let instrumented := addTracerImport code
                let fs2 := FS.write fs1 filePath instrumented
                (fs2, ⟨true, none, res.2, bp, some originalCode, some instrumented⟩)

/-- `PythonInstrumenter.uninstrument_file`: with `restore` set, copy the
backup's content over the target and report success when the backup exists
(the backup is not deleted), report failure otherwise; without `restore`,
strip marker lines textually.  All failures (missing backup, unreadable
file) are reported as `false`. -/
def uninstrumentFile (fs : FS) (filePath : String) (restore : Bool) : FS × Bool :=
  if restore then
    match fs (backupPath filePath) with
    | some originalCode => (FS.write fs filePath originalCode, true)
    | none => (fs, false)
  else
    match fs filePath with
    | none => (fs, false)
    | some code => (FS.write fs filePath (removeInstrumentation code), true)

/-! Concrete fixtures used to evaluate the development on closed inputs. -/

/-- The adapter's default options: level 2, parameter/return/async capture
on, no include-only list, no explicit excludes. -/
def optsStd : InstrumentOptions := ⟨2, true, true, false, true, [], []⟩

/-- Options whose include-only list holds one underscore-prefixed name. -/
def optsInc : InstrumentOptions := ⟨2, true, true, false, true, ["_f"], []⟩

/-- Options whose include-only list holds a reserved magic-method name. -/
def optsMagic : InstrumentOptions := ⟨2, true, true, false, true, ["__init__"], []⟩

/-- Empty environment: both tracing exclusion variables unset. -/
def envEmpty : Env := ⟨"", ""⟩

/-- Environment excluding every name starting with an underscore. -/
def envUnderscore : Env := ⟨"", "_"⟩

/-- Default wrapper over `test.py`. -/
def cfgStd : WrapperCfg := ⟨"test.py", optsStd, envEmpty⟩

/-- Wrapper with an include-only list that collides with the environment
prefix-exclusion list. -/
def cfgInc : WrapperCfg := ⟨"test.py", optsInc, envUnderscore⟩

/-- Wrapper whose include-only list requests a magic method. -/
def cfgMagic : WrapperCfg := ⟨"test.py", optsMagic, envEmpty⟩

/-- A file system holding one plain Python file. -/
def fsOne : FS :=
  fun q => if q = "app.py" then some "x = 1\n" else none

/-- A file system holding one already-instrumented file. -/
def fsInst : FS :=
  fun q => if q = "app.py" then some "__tracer\n" else none

/-- External collaborators whose parser always reports a diagnostic. -/
def extFail : External :=
  ⟨fun _ => Except.error "invalid syntax (app.py, line 1)",
   fun _ => Except.error "emission failure"⟩

/-- External collaborators that parse to an empty module and emit empty
text: the identity-like happy path. -/
def extOk : External :=
  ⟨fun _ => Except.ok [], fun _ => Except.ok ""⟩

/-- A module holding a function definition with a nested inner definition. -/
def nestedTree : List Stmt :=
  [Stmt.funcDef "outer" [] [Stmt.funcDef "inner" [] [Stmt.passS]]]

/-- External collaborators whose parser yields `nestedTree` and whose
emitter succeeds. -/
def extNested : External :=
  ⟨fun _ => Except.ok nestedTree, fun _ => Except.ok "pass\n"⟩

/-- The wrapper configuration `instrument_file` builds over `app.py` with
the default options and empty environment. -/
def cfgApp : WrapperCfg := ⟨"app.py", optsStd, envEmpty⟩

end PyAdapter

namespace PyAdapter

/-- Evaluating a written file system at the written path. -/
theorem FS.write_same (fs : FS) (p c : String) : FS.write fs p c p = some c := by
  simp [FS.write]

/-- Evaluating a written file system away from the written path. -/
theorem FS.write_other (fs : FS) (p c q : String) (h : q ≠ p) :
    FS.write fs p c q = fs q := by
  simp [FS.write, h]

/-- A backup path is never the file's own path: it is strictly longer. -/
theorem backupPath_ne (p : String) : backupPath p ≠ p := by
  intro h
  have hlen := congrArg String.length h
  rw [backupPath, String.length_append] at hlen
  have hb : backupDir.length = 36 := rfl
  omega

mutual
/-- The return transformer reroutes exactly the value-carrying returns of a
statement, at every depth, in order: collecting the returns afterwards
yields the original collection with each value passed to the end hook. -/
theorem stmtReturns_transform : ∀ s : Stmt,
    stmtReturns (returnTransformStmt s) = (stmtReturns s).map (Option.map tracerEndCall)
  | Stmt.ret (some v) => by simp [returnTransformStmt, stmtReturns]
  | Stmt.ret none => by simp [returnTransformStmt, stmtReturns]
  | Stmt.exprS e => rfl
  | Stmt.assign t v => rfl
  | Stmt.raiseS e => rfl
  | Stmt.passS => rfl
  | Stmt.ifS t b e => by
      simp [returnTransformStmt, stmtReturns, bodyReturns_transform b, bodyReturns_transform e]
  | Stmt.whileS t b => by
      simp [returnTransformStmt, stmtReturns, bodyReturns_transform b]
  | Stmt.forS x it b => by
      simp [returnTransformStmt, stmtReturns, bodyReturns_transform b]
  | Stmt.tryS b hs oe fb => by
      simp [returnTransformStmt, stmtReturns, bodyReturns_transform b,
        handlersReturns_transform hs, bodyReturns_transform oe, bodyReturns_transform fb]
  | Stmt.funcDef n a b => by
      simp [returnTransformStmt, stmtReturns, bodyReturns_transform b]
  | Stmt.asyncFuncDef n a b => by
      simp [returnTransformStmt, stmtReturns, bodyReturns_transform b]
  | Stmt.classDef n b => by
      simp [returnTransformStmt, stmtReturns, bodyReturns_transform b]

/-- `stmtReturns_transform` over statement lists. -/
theorem bodyReturns_transform : ∀ b : List Stmt,
    bodyReturns (returnTransformBody b) = (bodyReturns b).map (Option.map tracerEndCall)
  | [] => rfl
  | s :: t => by
      simp [returnTransformBody, bodyReturns, stmtReturns_transform s, bodyReturns_transform t]

/-- `stmtReturns_transform` over handler lists. -/
theorem handlersReturns_transform : ∀ hs : List Handler,
    handlersReturns (returnTransformHandlers hs)
      = (handlersReturns hs).map (Option.map tracerEndCall)
  | [] => rfl
  | Handler.mk ty n b :: t => by
      simp [returnTransformHandlers, handlersReturns, bodyReturns_transform b,
        handlersReturns_transform t]
end

/-- C5: a function name on the non-empty include-only list is instrumented
even when it starts with an environment-excluded prefix (and is neither a
reserved magic name nor otherwise on the exclude list): the include-only
rule decides before the prefix rule is consulted. -/
theorem includeOnly_overrides_prefix_exclusion (cfg : WrapperCfg) (fname : String)
    (hne : cfg.options.functions ≠ [])
    (hmem : fname ∈ cfg.options.functions)
    (hexc : fname ∉ getExcludedFunctions cfg.env cfg.options)
    (hpfx : ∃ pfx ∈ pySplitStr cfg.env.tracingExcludeFunctionPrefixes ',',
      pyStartsWith fname (pyStrip pfx)) :
    shouldInstrument cfg fname = true := by
  simp [shouldInstrument, hexc, hne, hmem]

/-- Witness for C5 at `cfgInc`: the name `_f` is on the include-only list,
matches the excluded prefix `_`, and is still instrumented. -/
theorem includeOnly_overrides_prefix_exclusion_witness :
    (cfgInc.options.functions ≠ [] ∧ "_f" ∈ cfgInc.options.functions
      ∧ "_f" ∉ getExcludedFunctions cfgInc.env cfgInc.options
      ∧ (∃ pfx ∈ pySplitStr cfgInc.env.tracingExcludeFunctionPrefixes ',',
          pyStartsWith "_f" (pyStrip pfx)))
    ∧ shouldInstrument cfgInc "_f" = true :=
  ⟨⟨by decide, by decide, by decide, ⟨"_", by decide, by decide⟩⟩,
   includeOnly_overrides_prefix_exclusion cfgInc "_f" (by decide) (by decide) (by decide)
     ⟨"_", by decide, by decide⟩⟩

/-- C6: the reserved magic-method names are never instrumented, whatever the
options say — in particular even when they appear on the include-only list —
and the wrapper leaves such a definition unmodified and uncounted. -/
theorem magic_methods_never_instrumented (cfg : WrapperCfg) (fname : String)
    (hmagic : fname ∈ (["__init__", "__str__", "__repr__", "__eq__"] : List String)) :
    shouldInstrument cfg fname = false
    ∧ ∀ a b, wrapVisitStmt cfg (Stmt.funcDef fname a b) = (Stmt.funcDef fname a b, 0) := by
  have hexc : fname ∈ getExcludedFunctions cfg.env cfg.options := by
    simp only [getExcludedFunctions]
    exact List.mem_append_right _ hmagic
  constructor
  · simp [shouldInstrument, hexc]
  · intro a b
    simp [wrapVisitStmt, shouldInstrument, hexc]

/-- Witness for C6 at `cfgMagic`: `__init__` is explicitly on the
include-only list and is still rejected and left unmodified. -/
theorem magic_methods_never_instrumented_witness :
    ("__init__" ∈ (["__init__", "__str__", "__repr__", "__eq__"] : List String)
      ∧ "__init__" ∈ cfgMagic.options.functions)
    ∧ shouldInstrument cfgMagic "__init__" = false
    ∧ wrapVisitStmt cfgMagic (Stmt.funcDef "__init__" [] [Stmt.passS])
        = (Stmt.funcDef "__init__" [] [Stmt.passS], 0) :=
  ⟨⟨by decide, by decide⟩,
   (magic_methods_never_instrumented cfgMagic "__init__" (by decide)).1,
   (magic_methods_never_instrumented cfgMagic "__init__" (by decide)).2 [] [Stmt.passS]⟩

/-- C7: in a body wrapped at level ≥ 2, the return transformer rewrites a
value-carrying `return v` into `return __tracer.end_function(__ctx, v)` and
leaves a bare `return` completely unmodified; the wrapped body is exactly the
context acquisition followed by the protected, return-transformed original
body. -/
theorem value_return_rerouted_bare_return_untouched (cfg : WrapperCfg)
    (fname : String) (args : List String) (body : List Stmt)
    (hl : 2 ≤ cfg.options.level) (he : shouldInstrument cfg fname = true) :
    (∀ v, returnTransformStmt (Stmt.ret (some v))
        = Stmt.ret (some (Expr.call (Expr.field (Expr.name "__tracer") "end_function")
            [Expr.name "__ctx", v])))
    ∧ returnTransformStmt (Stmt.ret none) = Stmt.ret none
    ∧ (wrapVisitStmt cfg (Stmt.funcDef fname args body)).1
        = Stmt.funcDef fname args
            [startFunctionStmt cfg.filePath fname args,
             Stmt.tryS (returnTransformBody body) [standardHandler] [] []] := by
  refine ⟨fun v => rfl, rfl, ?_⟩
  have h0 : cfg.options.level ≠ 0 := by omega
  have h1 : cfg.options.level ≠ 1 := by omega
  by_cases h2 : cfg.options.level = 2
  · simp [wrapVisitStmt, he, h0, h1, h2, wrapStandard]
  · simp [wrapVisitStmt, he, h0, h1, h2, wrapDetailed, wrapStandard]

/-- Witness for C7 at `cfgStd` on a body with one value-carrying and one
bare return. -/
theorem value_return_rerouted_bare_return_untouched_witness :
    ((2:Int) ≤ cfgStd.options.level ∧ shouldInstrument cfgStd "f" = true)
    ∧ (wrapVisitStmt cfgStd
        (Stmt.funcDef "f" ["x"] [Stmt.ret (some (Expr.name "x")), Stmt.ret none])).1
      = Stmt.funcDef "f" ["x"]
          [startFunctionStmt cfgStd.filePath "f" ["x"],
           Stmt.tryS (returnTransformBody [Stmt.ret (some (Expr.name "x")), Stmt.ret none])
             [standardHandler] [] []] :=
  ⟨⟨by decide, by decide⟩,
   (value_return_rerouted_bare_return_untouched cfgStd "f" ["x"]
      [Stmt.ret (some (Expr.name "x")), Stmt.ret none] (by decide) (by decide)).2.2⟩

/-- C1 counterexample: wrapping `outer` at level 2 rewrites the value-carrying
return of the nested definition `inner` — the enclosing pass does recurse
into inner function definitions, so the claimed boundary does not hold. -/
theorem nested_return_rewritten_by_outer_pass :
    (wrapVisitStmt cfgStd
       (Stmt.funcDef "outer" []
         [Stmt.funcDef "inner" [] [Stmt.ret (some (Expr.name "x"))]])).1
      = Stmt.funcDef "outer" []
          [startFunctionStmt "test.py" "outer" [],
           Stmt.tryS
             [Stmt.funcDef "inner" [] [Stmt.ret (some (tracerEndCall (Expr.name "x")))]]
             [standardHandler] [] []]
    ∧ Stmt.ret (some (tracerEndCall (Expr.name "x"))) ≠ Stmt.ret (some (Expr.name "x")) := by
  refine ⟨rfl, ?_⟩
  simp [tracerEndCall, tracerField]

/-- C1 (amended): the return normalization of a body wrapped at level ≥ 2
recurses into nested blocks and ALSO into nested function/coroutine
definitions: the transformer maps itself over every child body, and every
value-carrying return at every depth — nested definitions included — is
rerouted through the end hook. -/
theorem return_normalization_recurses_into_nested_defs
    (fp fname : String) (args : List String) (body : List Stmt) :
    wrapStandard fp fname args body
      = Stmt.funcDef fname args
          [startFunctionStmt fp fname args,
           Stmt.tryS (returnTransformBody body) [standardHandler] [] []]
    ∧ returnTransformStmt (Stmt.funcDef fname args body)
        = Stmt.funcDef fname args (returnTransformBody body)
    ∧ returnTransformStmt (Stmt.asyncFuncDef fname args body)
        = Stmt.asyncFuncDef fname args (returnTransformBody body)
    ∧ bodyReturns (returnTransformBody body)
        = (bodyReturns body).map (Option.map tracerEndCall) :=
  ⟨rfl, rfl, rfl, bodyReturns_transform body⟩

mutual
/-- The wrapper's counter tallies exactly the policy-eligible definitions its
traversal can reach: all statement-list children are visited except the
bodies of function/coroutine definitions. -/
theorem wrapCount_stmt : ∀ (cfg : WrapperCfg) (s : Stmt),
    (wrapVisitStmt cfg s).2 = eligibleReachableStmt cfg s
  | cfg, Stmt.funcDef n a b => by
      by_cases h : shouldInstrument cfg n <;>
        simp [wrapVisitStmt, eligibleReachableStmt, h] <;> split_ifs <;> rfl
  | cfg, Stmt.asyncFuncDef n a b => by
      by_cases h : shouldInstrument cfg n <;>
        simp [wrapVisitStmt, eligibleReachableStmt, h] <;> split_ifs <;> rfl
  | cfg, Stmt.ret v => rfl
  | cfg, Stmt.exprS e => rfl
  | cfg, Stmt.assign t v => rfl
  | cfg, Stmt.raiseS e => rfl
  | cfg, Stmt.passS => rfl
  | cfg, Stmt.ifS t b e => by
      simp [wrapVisitStmt, eligibleReachableStmt, wrapCount_body cfg b, wrapCount_body cfg e]
  | cfg, Stmt.whileS t b => by
      simp [wrapVisitStmt, eligibleReachableStmt, wrapCount_body cfg b]
  | cfg, Stmt.forS x it b => by
      simp [wrapVisitStmt, eligibleReachableStmt, wrapCount_body cfg b]
  | cfg, Stmt.tryS b hs oe fb => by
      simp [wrapVisitStmt, eligibleReachableStmt, wrapCount_body cfg b,
        wrapCount_handlers cfg hs, wrapCount_body cfg oe, wrapCount_body cfg fb]
  | cfg, Stmt.classDef n b => by
      simp [wrapVisitStmt, eligibleReachableStmt, wrapCount_body cfg b]

/-- `wrapCount_stmt` over statement lists. -/
theorem wrapCount_body : ∀ (cfg : WrapperCfg) (b : List Stmt),
    (wrapVisitBody cfg b).2 = eligibleReachableBody cfg b
  | cfg, [] => rfl
  | cfg, s :: t => by
      simp [wrapVisitBody, eligibleReachableBody, wrapCount_stmt cfg s, wrapCount_body cfg t]

/-- `wrapCount_stmt` over handler lists. -/
theorem wrapCount_handlers : ∀ (cfg : WrapperCfg) (hs : List Handler),
    (wrapVisitHandlers cfg hs).2 = eligibleReachableHandlers cfg hs
  | cfg, [] => rfl
  | cfg, Handler.mk ty n b :: t => by
      simp [wrapVisitHandlers, eligibleReachableHandlers, wrapCount_body cfg b,
        wrapCount_handlers cfg t]
end

/-- C2 counterexample: at the default configuration both `outer` and the
nested `inner` are policy-eligible, so the parsed file holds two eligible
definitions, but `instrument_file` succeeds reporting `functions_wrapped = 1`:
the traversal never enters a function body, so nested definitions are not
counted (nor given their own wrapping decision). -/
theorem wrap_count_misses_nested_defs :
    (instrumentFile extNested envEmpty fsOne "app.py" optsStd).2.success = true
    ∧ (instrumentFile extNested envEmpty fsOne "app.py" optsStd).2.functions_wrapped = 1
    ∧ eligibleAllBody cfgApp nestedTree = 2
    ∧ shouldInstrument cfgApp "inner" = true
    ∧ (1 : Nat) ≠ 2 :=
  ⟨rfl, rfl, rfl, rfl, by omega⟩

/-- C2 (amended): on every run of `instrument_file` that reaches the write
step, the returned `functions_wrapped` equals exactly the number of
policy-eligible function/coroutine definitions NOT nested inside another
function's body (the traversal applies the policy to definitions at module
level, in classes and in other statement blocks, but never descends into a
function definition's own body). -/
theorem wrap_count_eq_reachable_eligible (ext : External) (env : Env) (fs : FS)
    (p : String) (opts : InstrumentOptions) (c : String) (tree : List Stmt)
    (code : String) (hread : fs p = some c) (hni : isInstrumented c = false)
    (hp : ext.parse c = Except.ok tree)
    (hts : ext.toSource (wrapVisitBody (WrapperCfg.mk p opts env) tree).1
      = Except.ok code) :
    (instrumentFile ext env fs p opts).2.functions_wrapped
      = eligibleReachableBody (WrapperCfg.mk p opts env) tree := by
  have hc := wrapCount_body (WrapperCfg.mk p opts env) tree
  simp [instrumentFile, hread, hni, hp, hts, hc]

/-- Witness for the amended C2 at the nested-definition fixture. -/
theorem wrap_count_eq_reachable_eligible_witness :
    (fsOne "app.py" = some "x = 1\n"
      ∧ isInstrumented "x = 1\n" = false
      ∧ extNested.parse "x = 1\n" = Except.ok nestedTree
      ∧ extNested.toSource (wrapVisitBody (WrapperCfg.mk "app.py" optsStd envEmpty)
          nestedTree).1 = Except.ok "pass\n")
    ∧ (instrumentFile extNested envEmpty fsOne "app.py" optsStd).2.functions_wrapped
        = eligibleReachableBody (WrapperCfg.mk "app.py" optsStd envEmpty) nestedTree :=
  ⟨⟨rfl, rfl, rfl, rfl⟩,
   wrap_count_eq_reachable_eligible extNested envEmpty fsOne "app.py" optsStd
     "x = 1\n" nestedTree "pass\n" rfl rfl rfl rfl⟩

/-- Whenever the read succeeds, the snapshot of the original content is on
disk at the backup path after `instrument_file` returns — on every path,
success or failure. -/
theorem instrument_writes_backup (ext : External) (env : Env) (fs : FS)
    (p : String) (opts : InstrumentOptions) (c : String) (hread : fs p = some c) :
    (instrumentFile ext env fs p opts).1 (backupPath p) = some c := by
  have hpb : p ≠ backupPath p := Ne.symm (backupPath_ne p)
  by_cases hi : isInstrumented c
  · simp [instrumentFile, hread, hi, FS.write]
  · cases hp : ext.parse c with
    | error e => simp [instrumentFile, hread, hi, hp, FS.write]
    | ok tree =>
      cases hts : ext.toSource (wrapVisitBody (WrapperCfg.mk p opts env) tree).1 with
      | error e => simp [instrumentFile, hread, hi, hp, hts, FS.write]
      | ok code => simp [instrumentFile, hread, hi, hp, hts, FS.write, hpb, backupPath_ne p]

/-- On every failing run, the target file is untouched and the result carries
an error message: the failure is a structured result, never an escaping
exception or a partial write. -/
theorem instrument_failure_cases (ext : External) (env : Env) (fs : FS)
    (p : String) (opts : InstrumentOptions)
    (hfail : (instrumentFile ext env fs p opts).2.success = false) :
    (instrumentFile ext env fs p opts).1 p = fs p
    ∧ ((instrumentFile ext env fs p opts).2.error).isSome = true := by
  have hpb : p ≠ backupPath p := Ne.symm (backupPath_ne p)
  cases hr : fs p with
  | none => simp [instrumentFile, hr]
  | some c =>
    by_cases hi : isInstrumented c
    · simp [instrumentFile, hr, hi, FS.write, hpb]
    · cases hp : ext.parse c with
      | error e => simp [instrumentFile, hr, hi, hp, FS.write, hpb]
      | ok tree =>
        cases hts : ext.toSource (wrapVisitBody (WrapperCfg.mk p opts env) tree).1 with
        | error e => simp [instrumentFile, hr, hi, hp, hts, FS.write, hpb]
        | ok code =>
          exfalso
          have hs : (instrumentFile ext env fs p opts).2.success = true := by
            simp [instrumentFile, hr, hi, hp, hts]
          rw [hfail] at hs
          exact Bool.false_ne_true hs

/-- C3: after any run of `instrument_file` that reaches the snapshot step
(i.e. whose read succeeds), `restore` overwrites the file with content
byte-identical to the pre-instrumentation content and reports success; the
backup is not deleted, so a second restore succeeds as well. -/
theorem instrument_then_restore_roundtrip (ext : External) (env : Env) (fs : FS)
    (p : String) (opts : InstrumentOptions) (c : String) (hread : fs p = some c) :
    (uninstrumentFile (instrumentFile ext env fs p opts).1 p true).2 = true
    ∧ (uninstrumentFile (instrumentFile ext env fs p opts).1 p true).1 p = some c
    ∧ (uninstrumentFile (instrumentFile ext env fs p opts).1 p true).1 (backupPath p) = some c
    ∧ (uninstrumentFile
        (uninstrumentFile (instrumentFile ext env fs p opts).1 p true).1 p true).2 = true := by
  have hb := instrument_writes_backup ext env fs p opts c hread
  have h1 : uninstrumentFile (instrumentFile ext env fs p opts).1 p true
      = (FS.write (instrumentFile ext env fs p opts).1 p c, true) := by
    simp [uninstrumentFile, hb]
  have hb2 : FS.write (instrumentFile ext env fs p opts).1 p c (backupPath p) = some c := by
    rw [FS.write_other _ _ _ _ (backupPath_ne p)]
    exact hb
  have h2 : (uninstrumentFile (FS.write (instrumentFile ext env fs p opts).1 p c) p true).2
      = true := by
    simp [uninstrumentFile, hb2]
  refine ⟨by rw [h1], ?_, ?_, ?_⟩
  · rw [h1]
    exact FS.write_same _ _ _
  · rw [h1]
    exact hb2
  · rw [h1]
    exact h2

/-- Witness for C3 on a concrete one-file system, on the successful
instrumentation path. -/
theorem instrument_then_restore_roundtrip_witness :
    fsOne "app.py" = some "x = 1\n"
    ∧ (uninstrumentFile (instrumentFile extOk envEmpty fsOne "app.py" optsStd).1
        "app.py" true).2 = true
    ∧ (uninstrumentFile (instrumentFile extOk envEmpty fsOne "app.py" optsStd).1
        "app.py" true).1 "app.py" = some "x = 1\n" :=
  ⟨rfl,
   (instrument_then_restore_roundtrip extOk envEmpty fsOne "app.py" optsStd "x = 1\n" rfl).1,
   (instrument_then_restore_roundtrip extOk envEmpty fsOne "app.py" optsStd "x = 1\n" rfl).2.1⟩

/-- C4: on a readable file whose content already contains the tracer marker
or the tracer-import line, `instrument_file` fails with zero functions
wrapped, reports the freshly written snapshot's path as `backup_path`, and
leaves the file's content on disk unchanged. -/
theorem already_instrumented_rejected (ext : External) (env : Env) (fs : FS)
    (p : String) (opts : InstrumentOptions) (c : String)
    (hread : fs p = some c) (hinst : isInstrumented c = true) :
    (instrumentFile ext env fs p opts).2.success = false
    ∧ (instrumentFile ext env fs p opts).2.functions_wrapped = 0
    ∧ (instrumentFile ext env fs p opts).2.backup_path = backupPath p
    ∧ (instrumentFile ext env fs p opts).1 p = fs p
    ∧ (instrumentFile ext env fs p opts).1 (backupPath p) = some c := by
  have hpb : p ≠ backupPath p := Ne.symm (backupPath_ne p)
  simp [instrumentFile, hread, hinst, FS.write, hpb]

/-- Witness for C4 on a file whose content is the marker token itself. -/
theorem already_instrumented_rejected_witness :
    fsInst "app.py" = some "__tracer\n"
    ∧ isInstrumented "__tracer\n" = true
    ∧ (instrumentFile extOk envEmpty fsInst "app.py" optsStd).2.success = false
    ∧ (instrumentFile extOk envEmpty fsInst "app.py" optsStd).2.functions_wrapped = 0
    ∧ (instrumentFile extOk envEmpty fsInst "app.py" optsStd).2.backup_path
        = backupPath "app.py"
    ∧ (instrumentFile extOk envEmpty fsInst "app.py" optsStd).1 "app.py"
        = fsInst "app.py" :=
  ⟨rfl, rfl,
   (already_instrumented_rejected extOk envEmpty fsInst "app.py" optsStd "__tracer\n" rfl rfl).1,
   (already_instrumented_rejected extOk envEmpty fsInst "app.py" optsStd "__tracer\n" rfl rfl).2.1,
   (already_instrumented_rejected extOk envEmpty fsInst "app.py" optsStd "__tracer\n" rfl rfl).2.2.1,
   (already_instrumented_rejected extOk envEmpty fsInst "app.py" optsStd "__tracer\n" rfl rfl).2.2.2.1⟩

/-- C8: whenever `instrument_file` fails — unreadable file, idempotency
guard, parse failure, or emission failure — the target file's content is
unchanged: the target is overwritten only after emission has succeeded. -/
theorem failure_never_mutates_target (ext : External) (env : Env) (fs : FS)
    (p : String) (opts : InstrumentOptions)
    (hfail : (instrumentFile ext env fs p opts).2.success = false) :
    (instrumentFile ext env fs p opts).1 p = fs p :=
  (instrument_failure_cases ext env fs p opts hfail).1

/-- Witness for C8 with a parser that reports a diagnostic. -/
theorem failure_never_mutates_target_witness :
    (instrumentFile extFail envEmpty fsOne "app.py" optsStd).2.success = false
    ∧ (instrumentFile extFail envEmpty fsOne "app.py" optsStd).1 "app.py"
        = fsOne "app.py" :=
  ⟨rfl, failure_never_mutates_target extFail envEmpty fsOne "app.py" optsStd rfl⟩

/-- C9: every failure is reported as a structured value at the boundary —
a failing `instrument_file` result always carries an error message, and
`uninstrument_file` reports a missing backup as `false`, leaving the file
system untouched.  (Both operations are total functions of the embedding:
no exception can propagate.) -/
theorem failures_reported_not_raised (ext : External) (env : Env) (fs : FS)
    (p : String) (opts : InstrumentOptions) :
    ((instrumentFile ext env fs p opts).2.success = false →
      ((instrumentFile ext env fs p opts).2.error).isSome = true)
    ∧ (fs (backupPath p) = none → uninstrumentFile fs p true = (fs, false)) := by
  constructor
  · intro hf
    exact (instrument_failure_cases ext env fs p opts hf).2
  · intro hb
    simp [uninstrumentFile, hb]

/-- Witness for C9: a parse failure carries a message; restoring a file that
was never backed up reports `false`. -/
theorem failures_reported_not_raised_witness :
    ((instrumentFile extFail envEmpty fsOne "app.py" optsStd).2.success = false
      ∧ fsOne (backupPath "app.py") = none)
    ∧ ((instrumentFile extFail envEmpty fsOne "app.py" optsStd).2.error).isSome = true
    ∧ uninstrumentFile fsOne "app.py" true = (fsOne, false) :=
  ⟨⟨rfl, rfl⟩,
   (failures_reported_not_raised extFail envEmpty fsOne "app.py" optsStd).1 rfl,
   (failures_reported_not_raised extFail envEmpty fsOne "app.py" optsStd).2 rfl⟩

/-- C10: when `instrument_file` fails for any reason other than the
already-instrumented guard (here: after the guard has passed), the result's
`backup_path` is the empty string — even though the snapshot of the original
content had already been written to the backup path. -/
theorem generic_failure_reports_empty_backup_path (ext : External) (env : Env)
    (fs : FS) (p : String) (opts : InstrumentOptions) (c : String)
    (hread : fs p = some c) (hni : isInstrumented c = false)
    (hfail : (instrumentFile ext env fs p opts).2.success = false) :
    (instrumentFile ext env fs p opts).2.backup_path = ""
    ∧ (instrumentFile ext env fs p opts).1 (backupPath p) = some c := by
  refine ⟨?_, instrument_writes_backup ext env fs p opts c hread⟩
  cases hp : ext.parse c with
  | error e => simp [instrumentFile, hread, hni, hp]
  | ok tree =>
    cases hts : ext.toSource (wrapVisitBody (WrapperCfg.mk p opts env) tree).1 with
    | error e => simp [instrumentFile, hread, hni, hp, hts]
    | ok code =>
      exfalso
      have hs : (instrumentFile ext env fs p opts).2.success = true := by
        simp [instrumentFile, hread, hni, hp, hts]
      rw [hfail] at hs
      exact Bool.false_ne_true hs

/-- Witness for C10: a parse error on a plain file yields an empty
`backup_path` while the snapshot exists on disk. -/
theorem generic_failure_reports_empty_backup_path_witness :
    (fsOne "app.py" = some "x = 1\n"
      ∧ isInstrumented "x = 1\n" = false
      ∧ (instrumentFile extFail envEmpty fsOne "app.py" optsStd).2.success = false)
    ∧ (instrumentFile extFail envEmpty fsOne "app.py" optsStd).2.backup_path = ""
    ∧ (instrumentFile extFail envEmpty fsOne "app.py" optsStd).1 (backupPath "app.py")
        = some "x = 1\n" :=
  ⟨⟨rfl, rfl, rfl⟩,
   (generic_failure_reports_empty_backup_path extFail envEmpty fsOne "app.py" optsStd
      "x = 1\n" rfl rfl rfl).1,
   (generic_failure_reports_empty_backup_path extFail envEmpty fsOne "app.py" optsStd
      "x = 1\n" rfl rfl rfl).2⟩

end PyAdapter
